import Mathlib

/-!
# AgriClime-Sentinel: verification of the severe-weather analysis core

Shallow embedding of the severe-weather route (`fetchHeatwaveData`, the GET
orchestration) and the rate-limit middleware (`rateLimit`,
`RateLimitPresets`), together with a spec-modelled indices calculator
(`calculateSevereWeatherIndices`, whose source file is imported by the route
but not part of this tree).

Temperatures are modelled as integers (the source only compares, sorts and
takes maxima of them); times and counters as naturals.
-/

set_option maxRecDepth 40000

namespace AgriClime

/-- Result record of `fetchHeatwaveData` (route file, return object):
`{ heatWaves, extremeHeatDays, consecutiveHotDays, maxTemperature }`. -/
structure HeatMetrics where
  heatWaves : Nat
  extremeHeatDays : Nat
  consecutiveHotDays : Nat
  maxTemperature : Int
deriving Repr, DecidableEq

/-- Loop state of the heat-wave scan in `fetchHeatwaveData`:
`heatWaves`, `consecutiveHot`, `currentConsecutive` (all start at 0). -/
structure HeatLoopState where
  heatWaves : Nat
  consecutiveHot : Nat
  currentConsecutive : Nat
deriving Repr, DecidableEq

/-- One iteration of the `for (const temp of temperatures)` loop:
if `temp > temp95` both run counters grow and `heatWaves` is bumped exactly
when `consecutiveHot` becomes 3; otherwise both run counters reset. -/
def heatStep (temp95 : Int) (s : HeatLoopState) (temp : Int) : HeatLoopState :=
  if temp95 < temp then
    { heatWaves := if s.consecutiveHot + 1 = 3 then s.heatWaves + 1 else s.heatWaves
      consecutiveHot := s.consecutiveHot + 1
      currentConsecutive := s.currentConsecutive + 1 }
  else
    { heatWaves := s.heatWaves, consecutiveHot := 0, currentConsecutive := 0 }

/-- The whole scan over the chronological series. -/
def heatLoop (temp95 : Int) (temps : List Int) : HeatLoopState :=
  temps.foldl (heatStep temp95) ⟨0, 0, 0⟩

/-- `Math.floor(sortedTemps.length * 0.95)`; exact for every list length
(the double rounding of `n * 0.95` never crosses an integer boundary). -/
def percentileIndex (n : Nat) : Nat := n * 95 / 100

/-- `sortedTemps[Math.floor(sortedTemps.length * 0.95)]` where `sortedTemps`
is an ascending sorted copy (`[...temperatures].sort((a, b) => a - b)`),
modelled by insertion sort (all ascending sorts of an integer list agree, as
the sorted permutation is unique). The default 0 of `getD` is never reached
on the nonempty inputs the route feeds in. -/
def temp95 (temps : List Int) : Int :=
  (temps.insertionSort (· ≤ ·)).getD (percentileIndex temps.length) 0

/-- `Math.max(...temperatures)` on a nonempty list. -/
def maxTemp : List Int → Int
  | [] => 0
  | t :: ts => ts.foldl max t

/-- The pure core of `fetchHeatwaveData` (route file), starting from the
already null-filtered `temperatures` array: returns `null` on an empty
series, otherwise the 95th-percentile threshold, the strict above-threshold
day count, the scan results and the maximum temperature. -/
def fetchHeatwaveData (temps : List Int) : Option HeatMetrics :=
  if temps.length = 0 then none
  else
    some { heatWaves := (heatLoop (temp95 temps) temps).heatWaves
           extremeHeatDays := (temps.filter (fun t => temp95 temps < t)).length
           consecutiveHotDays := (heatLoop (temp95 temps) temps).currentConsecutive
           maxTemperature := maxTemp temps }

/-- Lengths of the maximal runs of `p`-satisfying elements, `cur` being the
length of the run open on entry. -/
def runLengthsAux (p : α → Prop) [DecidablePred p] : List α → Nat → List Nat
  | [], cur => if cur = 0 then [] else [cur]
  | a :: l, cur =>
    if p a then runLengthsAux p l (cur + 1)
    else if cur = 0 then runLengthsAux p l 0
    else cur :: runLengthsAux p l 0

/-- Lengths of the maximal runs of consecutive `p`-satisfying elements, in
order. Specification-side description of the run structure of a series. -/
def runLengths (p : α → Prop) [DecidablePred p] (l : List α) : List Nat :=
  runLengthsAux p l 0

/-- The number of heat-wave events the loop fires while scanning `l` from an
open run of length `c`: one event each time the open run reaches exactly 3. -/
def countRuns3From (p : α → Prop) [DecidablePred p] : List α → Nat → Nat
  | [], _ => 0
  | a :: l, c =>
    if p a then (if c + 1 = 3 then 1 else 0) + countRuns3From p l (c + 1)
    else countRuns3From p l 0

example : runLengths (fun t : Int => 2 < t) [1, 3, 3, 1, 3, 3, 3, 3] = [2, 4] := by decide

example : heatLoop 2 [1, 3, 3, 1, 3, 3, 3, 3] = ⟨1, 4, 4⟩ := by decide

example : fetchHeatwaveData [] = none := by decide

/-- The `heatWaves` output of the fold is the initial value plus the number of
firing events, as counted by `countRuns3From` from the open-run length. -/
theorem foldl_heatStep_heatWaves (t95 : Int) (l : List Int) (s : HeatLoopState) :
    (l.foldl (heatStep t95) s).heatWaves
      = s.heatWaves + countRuns3From (fun t => t95 < t) l s.consecutiveHot := by
  induction l generalizing s with
  | nil => simp [countRuns3From]
  | cons a l ih =>
    rw [List.foldl_cons, ih]
    by_cases hp : t95 < a
    · simp only [heatStep, if_pos hp, countRuns3From]
      by_cases h3 : s.consecutiveHot + 1 = 3 <;> simp [h3] <;> omega
    · simp [heatStep, if_neg hp, countRuns3From, hp]

/-- Bridge: the events counted by `countRuns3From` from an open run of
length `c` are the maximal runs of length ≥ 3 reported by `runLengthsAux`,
minus the one already fired when `c` itself reached 3. -/
theorem runLengthsAux_filter_length (p : α → Prop) [DecidablePred p]
    (l : List α) (c : Nat) :
    ((runLengthsAux p l c).filter (fun k => 3 ≤ k)).length
      = countRuns3From p l c + (if 3 ≤ c then 1 else 0) := by
  induction l generalizing c with
  | nil =>
    by_cases hc : c = 0
    · simp [runLengthsAux, countRuns3From, hc]
    · simp only [runLengthsAux, if_neg hc, countRuns3From]
      by_cases h3 : 3 ≤ c <;> simp [h3] <;> omega
  | cons a l ih =>
    by_cases hp : p a
    · simp only [runLengthsAux, if_pos hp, countRuns3From, ih]
      by_cases h3 : c + 1 = 3
      · have hc2 : c = 2 := by omega
        subst hc2
        simp
        omega
      · by_cases h2 : 3 ≤ c <;> simp [h2, h3] <;> omega
    · simp only [runLengthsAux, if_neg hp, countRuns3From]
      by_cases hc : c = 0
      · simp [hc, ih]
      · simp only [if_neg hc]
        by_cases h3 : 3 ≤ c <;> simp [h3, ih, hc] <;> omega

/-- The final `heatWaves` of the scan equals the number of maximal runs of length
at least 3 of above-threshold days. -/
theorem heatLoop_heatWaves (t95 : Int) (l : List Int) :
    (heatLoop t95 l).heatWaves
      = ((runLengths (fun t => t95 < t) l).filter (fun k => 3 ≤ k)).length := by
  rw [heatLoop, foldl_heatStep_heatWaves, runLengths, runLengthsAux_filter_length]
  simp

/-- C1: for every daily-maximum series, `heatWaveCount` is incremented
exactly once per maximal run of at least 3 consecutive days strictly above
the 95th-percentile threshold; in particular a series whose run structure is
exactly one run of 5 above-threshold days yields `heatWaveCount == 1`. -/
theorem heatWaveCount_once_per_maximal_run (temps : List Int) (m : HeatMetrics)
    (h : fetchHeatwaveData temps = some m) :
    m.heatWaves
      = ((runLengths (fun t => temp95 temps < t) temps).filter (fun k => 3 ≤ k)).length
    ∧ (runLengths (fun t => temp95 temps < t) temps = [5] → m.heatWaves = 1) := by
  unfold fetchHeatwaveData at h
  split at h
  · exact Option.noConfusion h
  · rw [Option.some_inj] at h
    subst h
    refine ⟨heatLoop_heatWaves _ _, fun hr => ?_⟩
    rw [heatLoop_heatWaves, hr]
    rfl

/-- A 101-day series: 48 ordinary days, one run of 5 hot days, 48 ordinary
days. Its computed 95th-percentile threshold is 20, so it has exactly one
maximal above-threshold run, of length 5. -/
def oneRunSeries : List Int :=
  List.replicate 48 20 ++ 30 :: 30 :: 30 :: 30 :: 30 :: List.replicate 48 20

/-- Witness for C1 at a concrete series with exactly one 5-day run. -/
theorem heatWaveCount_once_per_maximal_run_witness :
    fetchHeatwaveData oneRunSeries
      = some { heatWaves := 1, extremeHeatDays := 5, consecutiveHotDays := 0
               maxTemperature := 30 }
    ∧ (1 : Nat) = 1 := by
  have h : fetchHeatwaveData oneRunSeries
      = some { heatWaves := 1, extremeHeatDays := 5, consecutiveHotDays := 0
               maxTemperature := 30 } := by decide
  exact ⟨h, (heatWaveCount_once_per_maximal_run oneRunSeries _ h).2 (by decide)⟩

/-- Scan invariant: against the number of above-threshold days seen so far,
every fired wave has consumed 3 distinct such days, the open run consists of
such days, the two run counters move in lock step, and while the open run is
still short its days are not yet consumed by any wave. -/
theorem foldl_heatStep_bounds (t95 : Int) (l : List Int) (s : HeatLoopState) (d : Nat)
    (h1 : 3 * s.heatWaves ≤ d) (h2 : s.consecutiveHot ≤ d)
    (h3 : s.currentConsecutive = s.consecutiveHot)
    (h4 : s.consecutiveHot < 3 → 3 * s.heatWaves + s.consecutiveHot ≤ d) :
    3 * (l.foldl (heatStep t95) s).heatWaves ≤ d + (l.filter (fun t => t95 < t)).length
    ∧ (l.foldl (heatStep t95) s).consecutiveHot ≤ d + (l.filter (fun t => t95 < t)).length
    ∧ (l.foldl (heatStep t95) s).currentConsecutive
        = (l.foldl (heatStep t95) s).consecutiveHot := by
  induction l generalizing s d with
  | nil => exact ⟨by simpa using h1, by simpa using h2, h3⟩
  | cons a l ih =>
    rw [List.foldl_cons]
    by_cases hp : t95 < a
    · have hstep : heatStep t95 s a
          = { heatWaves := if s.consecutiveHot + 1 = 3 then s.heatWaves + 1 else s.heatWaves
              consecutiveHot := s.consecutiveHot + 1
              currentConsecutive := s.currentConsecutive + 1 } := by
        simp [heatStep, hp]
      have ha : 3 * (heatStep t95 s a).heatWaves ≤ d + 1 := by
        rw [hstep]
        by_cases h3' : s.consecutiveHot + 1 = 3
        · have := h4 (by omega)
          simp only [h3', if_pos]
          omega
        · simp only [h3', if_false]
          omega
      have hb : (heatStep t95 s a).consecutiveHot ≤ d + 1 := by
        rw [hstep]
        simp only []
        omega
      have hc : (heatStep t95 s a).currentConsecutive
          = (heatStep t95 s a).consecutiveHot := by
        rw [hstep]
        simpa using h3
      have hd : (heatStep t95 s a).consecutiveHot < 3 →
          3 * (heatStep t95 s a).heatWaves + (heatStep t95 s a).consecutiveHot ≤ d + 1 := by
        rw [hstep]
        intro hlt
        simp only [] at hlt ⊢
        have h3' : ¬(s.consecutiveHot + 1 = 3) := by omega
        simp only [h3', if_false]
        have := h4 (by omega)
        omega
      obtain ⟨r1, r2, r3⟩ := ih (heatStep t95 s a) (d + 1) ha hb hc hd
      have hfl : ((a :: l).filter (fun t => t95 < t)).length
          = (l.filter (fun t => t95 < t)).length + 1 := by
        simp [List.filter_cons, hp]
      rw [hfl]
      exact ⟨by omega, by omega, r3⟩
    · have hstep : heatStep t95 s a = ⟨s.heatWaves, 0, 0⟩ := by
        simp [heatStep, hp]
      have hrec := ih (heatStep t95 s a) d
        (by rw [hstep]; exact h1) (by rw [hstep]; exact Nat.zero_le d)
        (by rw [hstep]) (by rw [hstep]; intro _; simpa using h1)
      have hfl : ((a :: l).filter (fun t => t95 < t)).length
          = (l.filter (fun t => t95 < t)).length := by
        simp [List.filter_cons, hp]
      rw [hfl]
      exact hrec

/-- C9: every counted heat wave consumes a distinct run of at least 3
extreme-heat days (`extremeHeatDays ≥ 3 × heatWaves`), and the current
streak consists only of days already counted as extreme-heat days
(`consecutiveHotDays ≤ extremeHeatDays`). -/
theorem heatMetrics_bounds (temps : List Int) (m : HeatMetrics)
    (h : fetchHeatwaveData temps = some m) :
    3 * m.heatWaves ≤ m.extremeHeatDays
    ∧ m.consecutiveHotDays ≤ m.extremeHeatDays := by
  unfold fetchHeatwaveData at h
  split at h
  · exact Option.noConfusion h
  · rw [Option.some_inj] at h
    subst h
    obtain ⟨r1, r2, r3⟩ := foldl_heatStep_bounds (temp95 temps) temps ⟨0, 0, 0⟩ 0
      (by simp) (by simp) rfl (by simp)
    constructor
    · simpa [heatLoop] using r1
    · simp only [heatLoop]
      rw [r3]
      simpa using r2

/-- Witness for C9 at a concrete series. -/
theorem heatMetrics_bounds_witness :
    fetchHeatwaveData [1, 2, 3]
      = some { heatWaves := 0, extremeHeatDays := 0, consecutiveHotDays := 0
               maxTemperature := 3 }
    ∧ 3 * (0 : Nat) ≤ 0 ∧ (0 : Nat) ≤ 0 :=
  ⟨by decide,
   heatMetrics_bounds [1, 2, 3]
     { heatWaves := 0, extremeHeatDays := 0, consecutiveHotDays := 0
       maxTemperature := 3 } (by decide)⟩

/-- `Math.floor(n * 0.95) < n` for every nonzero length `n`. -/
theorem percentileIndex_lt (n : Nat) (h : n ≠ 0) : percentileIndex n < n := by
  unfold percentileIndex
  omega

/-- The 95th-percentile threshold is an element of the series it was
computed from: the lookup index is in bounds of the sorted copy, which is a
permutation of the series. -/
theorem temp95_mem (temps : List Int) (h : temps ≠ []) : temp95 temps ∈ temps := by
  unfold temp95
  have hperm := List.perm_insertionSort (fun a b : Int => a ≤ b) temps
  have hidx : percentileIndex temps.length < (temps.insertionSort (· ≤ ·)).length := by
    rw [hperm.length_eq]
    exact percentileIndex_lt _ (by simpa using h)
  rw [List.getD_eq_getElem _ _ hidx]
  exact hperm.mem_iff.mp (List.getElem_mem hidx)

/-- C6: for every constant non-empty temperature series,
`extremeHeatDays == 0` — the threshold is the common value itself and the
above-threshold comparison is strict, so a tie is not counted. -/
theorem extremeHeatDays_zero_of_constant (temps : List Int) (c : Int) (m : HeatMetrics)
    (hall : ∀ t ∈ temps, t = c) (h : fetchHeatwaveData temps = some m) :
    m.extremeHeatDays = 0 := by
  unfold fetchHeatwaveData at h
  split at h
  · exact Option.noConfusion h
  · rename_i hne
    rw [Option.some_inj] at h
    subst h
    have hmem : temp95 temps ∈ temps := temp95_mem temps (by simpa using hne)
    have ht95 : temp95 temps = c := hall _ hmem
    simp only [List.length_eq_zero]
    rw [List.filter_eq_nil_iff]
    intro t ht
    rw [hall t ht, ht95]
    simp

/-- Witness for C6 at a concrete constant series. -/
theorem extremeHeatDays_zero_of_constant_witness :
    fetchHeatwaveData [5, 5, 5, 5]
      = some { heatWaves := 0, extremeHeatDays := 0, consecutiveHotDays := 0
               maxTemperature := 5 }
    ∧ ({ heatWaves := 0, extremeHeatDays := 0, consecutiveHotDays := 0
         maxTemperature := 5 } : HeatMetrics).extremeHeatDays = 0 :=
  ⟨by decide,
   extremeHeatDays_zero_of_constant [5, 5, 5, 5] 5 _ (by decide) (by decide)⟩

/-- C10: on every non-empty series the percentile lookup index is in
bounds, the threshold is an element of the series, and — the comparison
being strict — at least one element is never counted:
`extremeHeatDays ≤ n - 1`. -/
theorem percentile_lookup_in_bounds (temps : List Int) (m : HeatMetrics)
    (h : fetchHeatwaveData temps = some m) :
    percentileIndex temps.length < temps.length
    ∧ temp95 temps ∈ temps
    ∧ m.extremeHeatDays ≤ temps.length - 1 := by
  unfold fetchHeatwaveData at h
  split at h
  · exact Option.noConfusion h
  · rename_i hne
    rw [Option.some_inj] at h
    subst h
    have hne' : temps ≠ [] := by simpa using hne
    have hmem : temp95 temps ∈ temps := temp95_mem temps hne'
    refine ⟨percentileIndex_lt _ (by simpa using hne), hmem, ?_⟩
    show (temps.filter (fun t => temp95 temps < t)).length ≤ temps.length - 1
    have hlt : (temps.filter (fun t => temp95 temps < t)).length < temps.length := by
      apply List.length_filter_lt_length_iff_exists.mpr
      exact ⟨temp95 temps, hmem, by simp⟩
    omega

/-- Witness for C10 at a concrete series. -/
theorem percentile_lookup_in_bounds_witness :
    fetchHeatwaveData [7, 8, 9]
      = some { heatWaves := 0, extremeHeatDays := 0, consecutiveHotDays := 0
               maxTemperature := 9 }
    ∧ (percentileIndex 3 < 3 ∧ temp95 [7, 8, 9] ∈ [7, 8, 9] ∧ (0 : Nat) ≤ 3 - 1) :=
  ⟨by decide,
   percentile_lookup_in_bounds [7, 8, 9]
     { heatWaves := 0, extremeHeatDays := 0, consecutiveHotDays := 0
       maxTemperature := 9 } (by decide)⟩

/-- C3 counterexample: on the empty series `fetchHeatwaveData` returns
`null`, not a zero-valued metrics record. -/
theorem fetchHeatwaveData_empty_is_none : fetchHeatwaveData [] = none := rfl

/-- C3 amended: the heatwave computation signals an absent result (`null`)
exactly on the empty series; every non-empty series produces a metrics
record. -/
theorem fetchHeatwaveData_none_iff (temps : List Int) :
    fetchHeatwaveData temps = none ↔ temps = [] := by
  unfold fetchHeatwaveData
  split
  · rename_i h
    simpa [List.length_eq_zero] using h
  · rename_i h
    simp [List.length_eq_zero] at h
    simp [h]

/-- C7: the heat-metrics computation is deterministic — identical input
series map to identical outputs. -/
theorem fetchHeatwaveData_deterministic (t1 t2 : List Int) (h : t1 = t2) :
    fetchHeatwaveData t1 = fetchHeatwaveData t2 := by
  rw [h]

/-- Witness for C7 at a concrete series. -/
theorem fetchHeatwaveData_deterministic_witness :
    fetchHeatwaveData [3, 4] = fetchHeatwaveData [3, 4] :=
  fetchHeatwaveData_deterministic [3, 4] [3, 4] rfl

/-! ## Rate-limit middleware (`rate-limit` source file) -/

/-- `RateLimitConfig`: window size, request budget and optional message. -/
structure RateLimitConfig where
  maxRequests : Nat
  windowMs : Nat
  message : Option String := none
deriving Repr, DecidableEq

/-- `RateLimitEntry` stored in `rateLimitStore` for one client key. -/
structure RateLimitEntry where
  count : Nat
  resetTime : Nat
deriving Repr, DecidableEq

/-- The record returned by one call of the closure `rateLimit(config)`
returns (the `message` field is omitted; it is `none` iff allowed). -/
structure RateLimitResult where
  isAllowed : Bool
  remaining : Nat
  resetTime : Nat
deriving Repr, DecidableEq

/-- One call of `checkRateLimit` for a fixed client key: read the stored
entry (`none` when absent), start a fresh window when absent or expired
(`entry.resetTime < now`), increment the count, and answer
`isAllowed = count <= maxRequests`,
`remaining = Math.max(0, maxRequests - count)` (truncated subtraction).
Returns the result with the entry written back to the store. -/
def checkRateLimit (config : RateLimitConfig) (stored : Option RateLimitEntry)
    (now : Nat) : RateLimitResult × RateLimitEntry :=
  let base : RateLimitEntry :=
    match stored with
    | none => { count := 0, resetTime := now + config.windowMs }
    | some e =>
      if e.resetTime < now then { count := 0, resetTime := now + config.windowMs }
      else e
  let entry : RateLimitEntry := { base with count := base.count + 1 }
  ({ isAllowed := entry.count ≤ config.maxRequests
     remaining := config.maxRequests - entry.count
     resetTime := entry.resetTime }, entry)

/-- A sequence of checks for one client key at the given times, threading
the stored entry through the per-key store. -/
def runChecks (config : RateLimitConfig) (stored : Option RateLimitEntry) :
    List Nat → List RateLimitResult × Option RateLimitEntry
  | [] => ([], stored)
  | t :: ts =>
    ((checkRateLimit config stored t).1
        :: (runChecks config (some (checkRateLimit config stored t).2) ts).1,
     (runChecks config (some (checkRateLimit config stored t).2) ts).2)

/-- `RateLimitPresets.standard`: 60 requests per minute. -/
def RateLimitPresets.standard : RateLimitConfig :=
  { maxRequests := 60, windowMs := 60 * 1000
    message := some "Rate limit exceeded. Please slow down your requests." }

/-- `RateLimitPresets.strict`: 10 requests per minute. -/
def RateLimitPresets.strict : RateLimitConfig :=
  { maxRequests := 10, windowMs := 60 * 1000
    message := some "Too many requests. Please try again in a minute." }

/-- `RateLimitPresets.relaxed`: 120 requests per minute. -/
def RateLimitPresets.relaxed : RateLimitConfig :=
  { maxRequests := 120, windowMs := 60 * 1000
    message := some "Rate limit exceeded. Please try again shortly." }

/-- `RateLimitPresets.burst`: 30 requests per 10 seconds. -/
def RateLimitPresets.burst : RateLimitConfig :=
  { maxRequests := 30, windowMs := 10 * 1000
    message := some "Too many requests in a short time. Please wait a moment." }

/-- The limiter the severe-weather `GET`/`POST` handlers construct:
`rateLimit(RateLimitPresets.standard)`. -/
def severeWeatherRateLimitConfig : RateLimitConfig := RateLimitPresets.standard

example :
    checkRateLimit RateLimitPresets.standard none 5
      = ({ isAllowed := true, remaining := 59, resetTime := 60005 },
         { count := 1, resetTime := 60005 }) := by decide

/-- While the window is open (every time at most the stored `resetTime`),
the `i`-th further check simply advances the count from `k`. -/
theorem runChecks_in_window (config : RateLimitConfig) (k r : Nat) (ts : List Nat)
    (h : ∀ t ∈ ts, t ≤ r) :
    (runChecks config (some { count := k, resetTime := r }) ts).1
      = (List.range ts.length).map (fun i =>
          { isAllowed := decide (k + i + 1 ≤ config.maxRequests)
            remaining := config.maxRequests - (k + i + 1)
            resetTime := r }) := by
  induction ts generalizing k with
  | nil => rfl
  | cons t ts ih =>
    have ht : ¬(r < t) := by
      have := h t (List.mem_cons_self t ts)
      omega
    have hstep : checkRateLimit config (some { count := k, resetTime := r }) t
        = ({ isAllowed := decide (k + 1 ≤ config.maxRequests)
             remaining := config.maxRequests - (k + 1)
             resetTime := r },
           { count := k + 1, resetTime := r }) := by
      simp [checkRateLimit, ht]
    rw [runChecks, hstep]
    simp only []
    rw [ih (k + 1) (fun t' ht' => h t' (List.mem_cons_of_mem t ht'))]
    rw [List.length_cons, List.range_succ_eq_map, List.map_cons, List.map_map]
    refine congrArg₂ List.cons (by simp) ?_
    apply List.map_congr_left
    intro i _
    have harith : k + 1 + i + 1 = k + (i + 1) + 1 := by omega
    simp [Function.comp, harith]

/-- C8: the limiter is a fixed-window counter. From an empty store, a first
check at `t0` and later checks all inside the stored window produce, for the
`i`-th check overall, `isAllowed = (i + 1 ≤ maxRequests)` and
`remaining = maxRequests − (i+1)` truncated at 0 (so every over-budget check
is refused with `remaining = 0`); a check arriving strictly after the stored
`resetTime` restarts the window with count 1; and the severe-weather
endpoints use the standard preset of 60 requests per 60000 ms. -/
theorem rateLimit_fixed_window (config : RateLimitConfig) (t0 : Nat) (ts : List Nat)
    (hwin : ∀ t ∈ ts, t ≤ t0 + config.windowMs) :
    (runChecks config none (t0 :: ts)).1
      = (List.range (ts.length + 1)).map (fun i =>
          { isAllowed := decide (i + 1 ≤ config.maxRequests)
            remaining := config.maxRequests - (i + 1)
            resetTime := t0 + config.windowMs })
    ∧ (∀ e : RateLimitEntry, ∀ now, e.resetTime < now →
        checkRateLimit config (some e) now
          = ({ isAllowed := decide (1 ≤ config.maxRequests)
               remaining := config.maxRequests - 1
               resetTime := now + config.windowMs },
             { count := 1, resetTime := now + config.windowMs }))
    ∧ severeWeatherRateLimitConfig.maxRequests = 60
    ∧ severeWeatherRateLimitConfig.windowMs = 60000 := by
  refine ⟨?_, ?_, rfl, rfl⟩
  · have hfirst : checkRateLimit config none t0
        = ({ isAllowed := decide (1 ≤ config.maxRequests)
             remaining := config.maxRequests - 1
             resetTime := t0 + config.windowMs },
           { count := 1, resetTime := t0 + config.windowMs }) := by
      simp [checkRateLimit]
    rw [runChecks, hfirst]
    simp only []
    rw [runChecks_in_window config 1 (t0 + config.windowMs) ts hwin]
    rw [List.range_succ_eq_map, List.map_cons, List.map_map]
    refine congrArg₂ List.cons (by simp) ?_
    apply List.map_congr_left
    intro i _
    have harith : 1 + i + 1 = i + 1 + 1 := by omega
    simp [Function.comp, harith]
  · intro e now hlt
    simp [checkRateLimit, hlt]

/-- Witness for C8: three checks at times 0, 10, 20 under the standard
preset. -/
theorem rateLimit_fixed_window_witness :
    ((runChecks RateLimitPresets.standard none (0 :: [10, 20])).1
      = (List.range ([10, 20].length + 1)).map (fun i =>
          { isAllowed := decide (i + 1 ≤ RateLimitPresets.standard.maxRequests)
            remaining := RateLimitPresets.standard.maxRequests - (i + 1)
            resetTime := 0 + RateLimitPresets.standard.windowMs })
    ∧ (∀ e : RateLimitEntry, ∀ now, e.resetTime < now →
        checkRateLimit RateLimitPresets.standard (some e) now
          = ({ isAllowed := decide (1 ≤ RateLimitPresets.standard.maxRequests)
               remaining := RateLimitPresets.standard.maxRequests - 1
               resetTime := now + RateLimitPresets.standard.windowMs },
             { count := 1, resetTime := now + RateLimitPresets.standard.windowMs }))
    ∧ severeWeatherRateLimitConfig.maxRequests = 60
    ∧ severeWeatherRateLimitConfig.windowMs = 60000) :=
  rateLimit_fixed_window RateLimitPresets.standard 0 [10, 20] (by decide)

/-! ## Sounding model and indices calculator

The route imports `calculateSevereWeatherIndices` and
`generateSampleSounding` from the `severe-weather-indices` module, whose
source file is not part of this tree; those two are modelled from the spec.
-/

/-- `AtmosphericSounding`: six parallel numeric arrays (route interface). -/
structure AtmosphericSounding where
  pressure : List ℚ
  temperature : List ℚ
  dewpoint : List ℚ
  height : List ℚ
  windSpeed : List ℚ
  windDirection : List ℚ
deriving Repr, DecidableEq

/-- Modelled from the spec: `generateSampleSounding` (source file missing
from the tree) — a deterministically generated synthetic vertical profile,
used on every fallback path. Its exact numbers are unconstrained by the
spec; only that it is one fixed, documented profile. -/
def generateSampleSounding : AtmosphericSounding :=
  { pressure := [1000, 850, 700, 500, 300]
    temperature := [25, 15, 5, -20, -45]
    dewpoint := [20, 12, 0, -30, -60]
    height := [100, 1500, 3000, 5800, 9500]
    windSpeed := [5, 10, 15, 25, 35]
    windDirection := [180, 190, 200, 220, 240] }

/-- Modelled from the spec: gravity constant `g` of the CAPE integrand. -/
def gravity : ℚ := 981 / 100

/-- Modelled from the spec: dry-adiabatic lapse rate (°C per m) used to
lift the surface parcel to its condensation level. -/
def dryLapse : ℚ := 98 / 10000

/-- Modelled from the spec: moist-adiabatic lapse rate (°C per m) used
above the condensation level. -/
def moistLapse : ℚ := 6 / 1000

/-- Modelled from the spec: lifted-condensation-level height of a surface
parcel with temperature `t0` and dewpoint `td0` starting at height `h0`
(standard 125 m per degree of dewpoint depression). -/
def lclHeight (t0 td0 h0 : ℚ) : ℚ := h0 + 125 * (t0 - td0)

/-- Modelled from the spec: parcel temperature at height `h` — dry adiabat
up to the condensation level, moist adiabat above it. -/
def parcelTemp (t0 td0 h0 h : ℚ) : ℚ :=
  if h ≤ lclHeight t0 td0 h0 then t0 - dryLapse * (h - h0)
  else t0 - dryLapse * (lclHeight t0 td0 h0 - h0)
    - moistLapse * (h - lclHeight t0 td0 h0)

/-- Modelled from the spec: the buoyancy integrand of one layer
`g × (T_parcel − T_env) / T_env` times the layer thickness. -/
def buoyancyContribution (tParcel tEnv dh : ℚ) : ℚ :=
  gravity * ((tParcel - tEnv) / tEnv) * dh

/-- Modelled from the spec: numerical CAPE integration over consecutive
`(environment temperature, height)` layers, accumulating the
contribution of a layer only where the parcel is positively buoyant (the positive
region only). -/
def capeSum (t0 td0 h0 : ℚ) : List (ℚ × ℚ) → ℚ
  | [] => 0
  | [_] => 0
  | (te1, h1) :: (te2, h2) :: rest =>
    (if 0 < buoyancyContribution (parcelTemp t0 td0 h0 h1) te1 (h2 - h1) then
      buoyancyContribution (parcelTemp t0 td0 h0 h1) te1 (h2 - h1)
    else 0)
    + capeSum t0 td0 h0 ((te2, h2) :: rest)

/-- Modelled from the spec: CAPE of a sounding — lift the surface parcel
and integrate positive buoyancy; a sounding without a surface level has no
positive area and reports 0. -/
def cape (s : AtmosphericSounding) : ℚ :=
  match s.temperature, s.dewpoint, s.height with
  | t0 :: _, td0 :: _, h0 :: _ => capeSum t0 td0 h0 (s.temperature.zip s.height)
  | _, _, _ => 0

/-- Modelled from the spec: the level whose pressure is nearest a target
pressure, soft-failing on an empty profile. -/
def nearestLevel (target : ℚ) : List (ℚ × ℚ) → Option (ℚ × ℚ)
  | [] => none
  | (p, v) :: rest =>
    match nearestLevel target rest with
    | none => some (p, v)
    | some (p', v') =>
      if |p - target| ≤ |p' - target| then some (p, v) else some (p', v')

/-- Modelled from the spec: the sounding spans a pressure band when some
level sits at or below its top and some at or above its bottom. -/
def spansBand (s : AtmosphericSounding) (top bottom : ℚ) : Bool :=
  s.pressure.any (fun p => p ≤ top) && s.pressure.any (fun p => bottom ≤ p)

/-- Modelled from the spec: temperature at the level nearest `target`
pressure. -/
def tempAt (s : AtmosphericSounding) (target : ℚ) : Option ℚ :=
  (nearestLevel target (s.pressure.zip s.temperature)).map Prod.snd

/-- Modelled from the spec: dewpoint at the level nearest `target`
pressure. -/
def dewpointAt (s : AtmosphericSounding) (target : ℚ) : Option ℚ :=
  (nearestLevel target (s.pressure.zip s.dewpoint)).map Prod.snd

/-- Modelled from the spec: K-Index
`(T850 − T500) + Td850 − (T700 − Td700)`, soft-failing (`none`) when the
sounding does not span 850–500 hPa. -/
def kIndex (s : AtmosphericSounding) : Option ℚ :=
  if spansBand s 500 850 then
    match tempAt s 850, tempAt s 500, dewpointAt s 850,
        tempAt s 700, dewpointAt s 700 with
    | some t850, some t500, some td850, some t700, some td700 =>
      some ((t850 - t500) + td850 - (t700 - td700))
    | _, _, _, _, _ => none
  else none

/-- Modelled from the spec: Total Totals `(T850 + Td850) − 2 × T500`, with
the same soft-fail rule as the K-Index. -/
def totalTotals (s : AtmosphericSounding) : Option ℚ :=
  if spansBand s 500 850 then
    match tempAt s 850, tempAt s 500, dewpointAt s 850 with
    | some t850, some t500, some td850 => some ((t850 + td850) - 2 * t500)
    | _, _, _ => none
  else none

/-- `SevereWeatherIndices` as the route response exposes it. -/
structure SevereWeatherIndices where
  cape : ℚ
  kIndex : Option ℚ
  totalTotals : Option ℚ
  heatwaveContribution : Option HeatMetrics
deriving Repr, DecidableEq

/-- Modelled from the spec: `calculateSevereWeatherIndices(sounding, heat?)`
(source file missing from the tree) — computes the indices from one sounding
plus optional heat metrics, carrying the heat metrics through as the
optional heatwave contribution. -/
def calculateSevereWeatherIndices (s : AtmosphericSounding)
    (heat : Option HeatMetrics) : SevereWeatherIndices :=
  { cape := cape s
    kIndex := kIndex s
    totalTotals := totalTotals s
    heatwaveContribution := heat }

/-- C5: the `cape` field of the computed indices is never negative — only
positively buoyant layers contribute to the integral. -/
theorem cape_nonneg (s : AtmosphericSounding) (heat : Option HeatMetrics) :
    0 ≤ (calculateSevereWeatherIndices s heat).cape := by
  show 0 ≤ cape s
  unfold cape
  split
  · rename_i t0 _ td0 _ h0 _ _ _ _
    generalize s.temperature.zip s.height = layers
    induction layers with
    | nil => simp [capeSum]
    | cons a rest ih =>
      match rest with
      | [] => simp [capeSum]
      | b :: rest' =>
        obtain ⟨te1, h1⟩ := a
        obtain ⟨te2, h2⟩ := b
        rw [capeSum]
        have hstep : (0 : ℚ) ≤
            if 0 < buoyancyContribution (parcelTemp t0 td0 h0 h1) te1 (h2 - h1) then
              buoyancyContribution (parcelTemp t0 td0 h0 h1) te1 (h2 - h1)
            else 0 := by
          split
          · linarith
          · exact le_refl 0
        exact add_nonneg hstep ih
  · exact le_refl 0

/-! ## The severe-weather `GET` orchestration (route file) -/

/-- What the `GET` handler hands to `calculateSevereWeatherIndices` and
emits: the chosen sounding, the `dataSource` tag (always present in the
response), and the heatwave data (or `null`). -/
structure AnalysisSelection where
  sounding : AtmosphericSounding
  dataSource : String
  heatwaveData : Option HeatMetrics
deriving Repr, DecidableEq

/-- Input selection of the `GET` handler: with coordinates present and
`sample` not forced, both upstream fetches run; a successful sounding fetch
is used and tagged `"NOAA HRRR Model"`, a failed one falls back to
`generateSampleSounding()` tagged `"sample (NOAA data unavailable)"`, and in
both cases `heatwaveData` is whatever the heatwave fetch returned.
Otherwise the sample sounding is used with the initial tag `"sample"` and
`heatwaveData` stays `null`. -/
def selectAnalysisInputs (hasCoords useSample : Bool)
    (noaaSounding : Option AtmosphericSounding)
    (heatwave : Option HeatMetrics) : AnalysisSelection :=
  if hasCoords && !useSample then
    match noaaSounding with
    | some s =>
      { sounding := s, dataSource := "NOAA HRRR Model", heatwaveData := heatwave }
    | none =>
      { sounding := generateSampleSounding
        dataSource := "sample (NOAA data unavailable)"
        heatwaveData := heatwave }
  else
    { sounding := generateSampleSounding, dataSource := "sample"
      heatwaveData := none }

/-- The indices the `GET` handler emits for a given selection:
`calculateSevereWeatherIndices(sounding, heatwaveData || undefined)`. -/
def emittedIndices (sel : AnalysisSelection) : SevereWeatherIndices :=
  calculateSevereWeatherIndices sel.sounding sel.heatwaveData

/-- C2 counterexample: with coordinates present, a failed sounding fetch
and a successful heatwave fetch, the one emitted `SevereWeatherIndices` is
computed from the synthetic fallback sounding together with the real
observed heat metrics — a mixed real/synthetic result. -/
theorem mixed_provenance_cex :
    (selectAnalysisInputs true false none
        (some { heatWaves := 1, extremeHeatDays := 4, consecutiveHotDays := 2
                maxTemperature := 38 })).sounding = generateSampleSounding
    ∧ (emittedIndices (selectAnalysisInputs true false none
        (some { heatWaves := 1, extremeHeatDays := 4, consecutiveHotDays := 2
                maxTemperature := 38 }))).heatwaveContribution
      = some { heatWaves := 1, extremeHeatDays := 4, consecutiveHotDays := 2
               maxTemperature := 38 } :=
  ⟨rfl, rfl⟩

/-- C2 amended: the fallback decision is made per input, not per call —
on the real-data path the heatwave fetch result is passed into the emitted
indices unchanged while the sounding independently falls back to the
synthetic sample exactly when its own fetch failed; hence one result can
combine a synthetic sounding with real heat metrics. -/
theorem fallback_is_per_input (noaa : Option AtmosphericSounding)
    (heatwave : Option HeatMetrics) :
    (selectAnalysisInputs true false noaa heatwave).heatwaveData = heatwave
    ∧ (selectAnalysisInputs true false noaa heatwave).sounding
      = (match noaa with | some s => s | none => generateSampleSounding) := by
  cases noaa <;> exact ⟨rfl, rfl⟩

/-- C4 counterexample: when the upstream sounding fetch is unavailable the
emitted tag is `"sample (NOAA data unavailable)"`, not
`"synthetic-fallback"`; so the claimed tag value never occurs. -/
theorem provenance_tag_value_cex :
    (selectAnalysisInputs true false none none).dataSource
      = "sample (NOAA data unavailable)"
    ∧ (selectAnalysisInputs true false none none).dataSource ≠ "synthetic-fallback" := by
  refine ⟨rfl, ?_⟩
  decide

/-- C4 amended: the emitted response always carries the provenance tag
`dataSource`, whose value is `"NOAA HRRR Model"` exactly when real sounding
data was used, `"sample (NOAA data unavailable)"` exactly when coordinates
were supplied, sample was not forced and the upstream sounding fetch was
unavailable, and `"sample"` exactly when the sample path was requested (no
coordinates, or `sample=true`). -/
theorem dataSource_tag_characterization (hasCoords useSample : Bool)
    (noaa : Option AtmosphericSounding) (heatwave : Option HeatMetrics) :
    ((selectAnalysisInputs hasCoords useSample noaa heatwave).dataSource
        = "NOAA HRRR Model"
      ↔ (hasCoords && !useSample) = true ∧ noaa.isSome = true)
    ∧ ((selectAnalysisInputs hasCoords useSample noaa heatwave).dataSource
        = "sample (NOAA data unavailable)"
      ↔ (hasCoords && !useSample) = true ∧ noaa = none)
    ∧ ((selectAnalysisInputs hasCoords useSample noaa heatwave).dataSource
        = "sample"
      ↔ (hasCoords && !useSample) = false) := by
  cases hasCoords <;> cases useSample <;> cases noaa <;>
    simp [selectAnalysisInputs] <;> decide

end AgriClime
